import Mathlib

/-
Verification development for the searchnets repository: a shallow embedding
of the validated configuration model (src/searchnets/config/classes.py) and
of the training-run orchestrator (src/searchnets/train.py), together with
theorems settling the frozen claims about them.

Python semantics conventions used throughout:
  - Python ints are modelled as Int, Python floats as Rat (exact arithmetic),
    Python bools as Bool, Python strings as String.
  - A value that in the source may be None, an int, or a float is modelled by
    the PyNum type below; "is None" / "type(x) != int" tests on it are explicit.
  - A raised exception is an Except.error carrying a PyErr value; ValueError
    and TypeError are distinguished, and referencing a local variable that no
    code path assigned (Python UnboundLocalError) is PyErr.unboundLocal.
  - attrs-validated classes are modelled as a structure of the candidate field
    values plus a make function that runs the field validators in declaration
    order and then the post-init hook, returning the constructed record or the
    first error, exactly as attrs does.
  - Checks the source states as Python type checks that are unrepresentable
    after typing the field (for example "all elements of epochs_list are int"
    when the field is List Int) hold by construction and are noted in comments.
-/

/-- A raised Python exception, as far as the claims need to distinguish them. -/
inductive PyErr where
  | valueError (msg : String)
  | typeError (msg : String)
  | unboundLocal (name : String)
deriving DecidableEq

instance {ε α : Type} [DecidableEq ε] [DecidableEq α] : DecidableEq (Except ε α) := fun x y =>
  match x, y with
  | Except.ok a, Except.ok b =>
    if h : a = b then isTrue (by rw [h]) else isFalse (fun hc => h (Except.ok.inj hc))
  | Except.error e, Except.error f =>
    if h : e = f then isTrue (by rw [h]) else isFalse (fun hc => h (Except.error.inj hc))
  | Except.ok _, Except.error _ => isFalse (fun hc => Except.noConfusion hc)
  | Except.error _, Except.ok _ => isFalse (fun hc => Except.noConfusion hc)

/-- A Python value that may be None, an int, or a float
(the possible runtime values of val_epoch and patience). -/
inductive PyNum where
  | none
  | int (n : Int)
  | float (q : Rat)
deriving DecidableEq

def PyNum.isNone : PyNum → Bool
  | .none => true
  | _ => false

def PyNum.isInt : PyNum → Bool
  | .int _ => true
  | _ => false

def PyNum.pyStr : PyNum → String
  | .none => "None"
  | .int n => toString n
  | .float q => toString q

/-- Python comparison x < 1: raises TypeError when x is None
(NoneType does not support ordering against int), otherwise compares. -/
def PyNum.ltOne : PyNum → Except PyErr Bool
  | .none => Except.error (PyErr.typeError "unorderable types: NoneType and int")
  | .int n => Except.ok (decide (n < 1))
  | .float q => Except.ok (decide (q < 1))

/-- A train/val/test split size: a Python int (absolute count) or float (proportion).
Passing any other Python type is rejected by the instance_of((int, float)) validator
in the source and is unrepresentable here. -/
inductive SplitSize where
  | int (n : Int)
  | float (q : Rat)
deriving DecidableEq

/-- classes.py is_valid_proportion: a float split size must lie in the closed
interval from 0 to 1; ints pass through unchecked. -/
def is_valid_proportion (name : String) : SplitSize → Except PyErr Unit
  | .float q =>
    if q < 0 ∨ q > 1 then
      Except.error (PyErr.valueError
        ("if specified as a proportion, " ++ name ++ " must be between 0 and 1"))
    else Except.ok ()
  | .int _ => Except.ok ()

/-- classes.py is_list_of_pos_int: every element must be a positive integer
(element type int holds by typing here; the value check is real). -/
def is_list_of_pos_int (name : String) (xs : List Int) : Except PyErr Unit :=
  if xs.all (fun x => 1 ≤ x) then Except.ok ()
  else Except.error (PyErr.valueError
    ("all elements in " ++ name ++ " must be positive integer"))

/-- classes.py is_pos_int (used via attr.validators.optional). -/
def is_pos_int (name : String) (v : Int) : Except PyErr Unit :=
  if v < 1 then
    Except.error (PyErr.valueError
      (name ++ " must be a positive integer, but was: " ++ toString v))
  else Except.ok ()

/-- classes.py is_non_neg_int (used via attr.validators.optional). -/
def is_non_neg_int (name : String) (v : Int) : Except PyErr Unit :=
  if v < 0 then
    Except.error (PyErr.valueError
      (name ++ " must be a non-negative integer, but was: " ++ toString v))
  else Except.ok ()

/-- attrs optional(validator): None passes, a present value is validated. -/
def optValidate (f : α → Except PyErr Unit) : Option α → Except PyErr Unit
  | Option.none => Except.ok ()
  | Option.some v => f v

/-- Candidate field values for the [DATA] section (classes.py DataConfig).
Defaults are the source defaults. -/
structure DataConfig where
  csv_file_in : String
  train_size : SplitSize
  root : Option String := Option.none
  dataset_type : String := "searchstims"
  csv_file_out : Option String := Option.none
  stim_types : Option (List String) := Option.none
  val_size : Option SplitSize := Option.none
  test_size : Option SplitSize := Option.none
  set_sizes : Option (List Int) := Option.none
  train_size_per_set_size : Option (List Int) := Option.none
  val_size_per_set_size : Option (List Int) := Option.none
  test_size_per_set_size : Option (List Int) := Option.none
deriving DecidableEq

/-- DataConfig.check_dataset_type validator. -/
def check_dataset_type (v : String) : Except PyErr Unit :=
  if v = "searchstims" ∨ v = "VSD" then Except.ok ()
  else Except.error (PyErr.valueError
    ("dataset_type must be one of searchstims, VSD, but was " ++ v ++ "."))

def sizeIsFloat : Option SplitSize → Bool
  | Option.some (SplitSize.float _) => true
  | _ => false

def sizeIsFloatOrNone : Option SplitSize → Bool
  | Option.some (SplitSize.float _) => true
  | Option.none => true
  | _ => false

/-- Python sum term: size if size is not None else 0. -/
def sizeOrZero : Option SplitSize → Rat
  | Option.some (SplitSize.float q) => q
  | Option.some (SplitSize.int n) => (n : Rat)
  | Option.none => 0

/-- The split sizes of a DataConfig in source order, train_size being mandatory. -/
def splitSizes (d : DataConfig) : List (Option SplitSize) :=
  [Option.some d.train_size, d.val_size, d.test_size]

/-- DataConfig.__attrs_post_init__ proportion-consistency check: if any split
size is a float, all provided ones must be floats (else TypeError) and their
sum must not exceed 1 (else ValueError). -/
def splitSizesCheck (sizes : List (Option SplitSize)) : Except PyErr Unit :=
  if sizes.any sizeIsFloat then
    if ¬ (sizes.all sizeIsFloatOrNone = true) then
      Except.error (PyErr.typeError
        ("if the size of any split of the dataset is specified as a proportion, "
          ++ "then they all must be specified as a proportion"))
    else if (sizes.map sizeOrZero).sum > 1 then
      Except.error (PyErr.valueError
        ("when specified as proportions, total of train_size, val_size, "
          ++ "and test_size cannot be greater than 1"))
    else Except.ok ()
  else Except.ok ()

/-- Constructing a DataConfig: attrs runs the field validators in declaration
order, then __attrs_post_init__ (the proportion-consistency check followed by
the csv_file_out default). Field type checks enforced by instance_of in the
source hold by typing here; set_sizes and stim_types element type checks are
likewise subsumed by the field types. -/
def DataConfig.make (d : DataConfig) : Except PyErr DataConfig := do
  is_valid_proportion "train_size" d.train_size
  check_dataset_type d.dataset_type
  optValidate (is_valid_proportion "val_size") d.val_size
  optValidate (is_valid_proportion "test_size") d.test_size
  optValidate (is_list_of_pos_int "train_size_per_set_size") d.train_size_per_set_size
  optValidate (is_list_of_pos_int "val_size_per_set_size") d.val_size_per_set_size
  optValidate (is_list_of_pos_int "test_size_per_set_size") d.test_size_per_set_size
  splitSizesCheck (splitSizes d)
  let out := Option.some (d.csv_file_out.getD (d.csv_file_in ++ "_split.csv"))
  Except.ok { d with csv_file_out := out }

/-- Candidate field values for the [TRAIN] section (classes.py TrainConfig).
Defaults are the source defaults (base_learning_rate 1e-20 as an exact rational). -/
structure TrainConfig where
  net_name : String
  number_nets_to_train : Int
  epochs_list : List Int
  batch_size : Int
  random_seed : Int
  save_path : String
  method : String := "transfer"
  learning_rate : Rat := 1/1000
  new_learn_rate_layers : List String := ["fc8"]
  new_layer_learning_rate : Rat := 1/1000
  base_learning_rate : Rat := 1 / 10 ^ 20
  freeze_trained_weights : Bool := true
  loss_func : String := "CE"
  optimizer : String := "SGD"
  save_acc_by_set_size_by_epoch : Bool := false
  use_val : Bool := false
  val_epoch : Option Int := Option.none
  summary_step : Option Int := Option.none
  patience : Option Int := Option.none
  checkpoint_epoch : Option Int := Option.none
  num_workers : Option Int := Option.some 4
  data_parallel : Bool := false
deriving DecidableEq

/-- Constructing a TrainConfig: attrs runs the field validators in declaration
order. The source has per-field validators only; number_nets_to_train is only
instance_of(int), check_epochs_list and check_new_learn_rate_layers are element
type checks (subsumed by the field types here), and there is no
__attrs_post_init__ and no cross-field validator on this class. -/
def TrainConfig.make (t : TrainConfig) : Except PyErr TrainConfig := do
  if t.net_name = "alexnet" ∨ t.net_name = "VGG16" ∨ t.net_name = "CORnet_Z" then
    Except.ok ()
  else
    Except.error (PyErr.valueError
      ("net_name must be one of alexnet, VGG16, CORnet_Z, but was "
        ++ t.net_name ++ "."))
  if t.method = "initialize" ∨ t.method = "transfer" then
    Except.ok ()
  else
    Except.error (PyErr.valueError
      ("method must be one of initialize, transfer, but was " ++ t.method ++ "."))
  if t.loss_func = "CE" ∨ t.loss_func = "BCE" then
    Except.ok ()
  else
    Except.error (PyErr.valueError
      ("loss_func must be one of CE, BCE, but was " ++ t.loss_func ++ "."))
  if t.optimizer = "SGD" ∨ t.optimizer = "Adam" ∨ t.optimizer = "AdamW" then
    Except.ok ()
  else
    Except.error (PyErr.valueError
      ("optimizer must be one of SGD, Adam, AdamW, but was " ++ t.optimizer ++ "."))
  optValidate (is_pos_int "val_epoch") t.val_epoch
  optValidate (is_pos_int "summary_step") t.summary_step
  optValidate (is_pos_int "patience") t.patience
  optValidate (is_pos_int "checkpoint_epoch") t.checkpoint_epoch
  optValidate (is_non_neg_int "num_workers") t.num_workers
  Except.ok t

/- ------------------------- the train() orchestrator ------------------------- -/

/-- The epochs_list argument of train() as it may arrive at runtime: a bare
Python int, a list of ints, or a value of some other type (carrying its type
name, only used in the error message). -/
inductive EpochsArg where
  | int (n : Int)
  | list (xs : List Int)
  | other (typename : String)
deriving DecidableEq

/-- A dataset handle as constructed by the orchestrator (transforms are
external collaborators and are omitted; the fields below are the ones train()
passes explicitly). -/
inductive Dataset where
  | voc (root : Option String) (csv_file : String) (image_set split : String) (download : Bool)
  | searchstims (csv_file split : String) (return_set_size : Bool)
deriving DecidableEq

/-- One unit of work produced by the job grid: the arguments that vary per job.
The trainer object itself (an external collaborator) is summarized by the
method string selecting which Training Strategy is constructed. -/
structure Job where
  epochs : Int
  net_number : Int
  save_path_this_net : String
  method : String
deriving DecidableEq

/-- The observable outcome of a successful train() call: the seeding decisions,
the datasets constructed once for all jobs, the loss selection, and the job grid.
For dataset fields, the outer Option is whether the local variable was assigned
at all (Python leaves it unbound otherwise) and the inner Option is Python None
versus an actual dataset. -/
structure TrainResult where
  seeded : Bool
  cudnn_deterministic : Bool
  trainset : Option Dataset
  valset : Option (Option Dataset)
  trainset_set_size : Option (Option Dataset)
  apply_sigmoid : Bool
  criterion : String
  jobs : List Job
deriving DecidableEq

/-- Arguments of train() (train.py lines 13-39) that the claims depend on.
Defaults are the source defaults; csv_file, dataset_type, net_name,
number_nets_to_train, epochs_list, batch_size, random_seed and save_path are
required in the source and carry no default here. Arguments that never affect
control flow or the claims (learning rates, freeze flag, optimizer, workers,
device parallelism, pad_size, num_classes, summary/checkpoint cadence) are
passed through verbatim to the trainers in the source and are omitted. -/
structure TrainArgs where
  csv_file : String
  dataset_type : String
  net_name : String
  number_nets_to_train : Int
  epochs_list : EpochsArg
  batch_size : Int
  random_seed : Int
  save_path : String
  root : Option String := Option.none
  method : String := "transfer"
  loss_func : String := "CE"
  use_val : Bool := true
  val_epoch : PyNum := PyNum.int 1
  patience : PyNum := PyNum.none
  save_acc_by_set_size_by_epoch : Bool := false
deriving DecidableEq

def valEpochMsg (v : PyNum) : String :=
  "invalid value for val_epoch: " ++ v.pyStr ++ ". Validation epoch must be positive integer"

/-- train.py line 133: if use_val and val_epoch is None or val_epoch < 1 or
type(val_epoch) != int: raise ValueError. Python precedence parses this as
(use_val and val_epoch is None) or (val_epoch < 1) or (type(val_epoch) != int),
with left-to-right short-circuit evaluation, so when the first disjunct is
false and val_epoch is None the comparison val_epoch < 1 itself raises a
TypeError. -/
def checkValEpoch (use_val : Bool) (val_epoch : PyNum) : Except PyErr Unit := do
  let cond ←
    if use_val && val_epoch.isNone then Except.ok true
    else do
      let lt ← val_epoch.ltOne
      Except.ok (lt || !val_epoch.isInt)
  if cond then Except.error (PyErr.valueError (valEpochMsg val_epoch))
  else Except.ok ()

/-- train.py lines 138-143: patience requires a validation set (ValueError),
and when patience is given, val_epoch must be an int and patience at least 1
(TypeError); the two source if-statements are sequenced, the first raising
before the second runs. -/
def checkPatience (use_val : Bool) (patience val_epoch : PyNum) : Except PyErr Unit := do
  if !use_val && !patience.isNone then
    Except.error (PyErr.valueError "patience argument only works with a validation set")
  else if !patience.isNone then
    if !val_epoch.isInt then
      Except.error (PyErr.typeError "patience must be a positive integer")
    else do
      let lt ← patience.ltOne
      if lt then Except.error (PyErr.typeError "patience must be a positive integer")
      else Except.ok ()
  else Except.ok ()

/-- train.py lines 145-151: a bare int epochs_list becomes a one-element list,
a list passes through, any other type raises TypeError. -/
def normalizeEpochsList : EpochsArg → Except PyErr (List Int)
  | .int n => Except.ok [n]
  | .list xs => Except.ok xs
  | .other typename =>
    Except.error (PyErr.typeError
      ("EPOCHS option in TRAIN section of config.ini file parsed as invalid type: "
        ++ typename))

/-- train.py lines 166-197: the dataset selection if/elif has no else branch,
so an unknown dataset_type leaves both trainset and valset unbound (modelled
as Option.none in the first component, and Option.none in the second). -/
def selectDatasets (dataset_type csv_file : String) (root : Option String)
    (use_val : Bool) : Option Dataset × Option (Option Dataset) :=
  if dataset_type = "VSD" then
    (Option.some (Dataset.voc root csv_file "trainval" "train" true),
     Option.some (if use_val
       then Option.some (Dataset.voc root csv_file "trainval" "val" true)
       else Option.none))
  else if dataset_type = "searchstims" then
    (Option.some (Dataset.searchstims csv_file "train" false),
     Option.some (if use_val
       then Option.some (Dataset.searchstims csv_file "val" false)
       else Option.none))
  else (Option.none, Option.none)

def saveAccVsdMsg : String :=
  "dataset type is VSD but save_acc_by_set_size_by_epoch was set to True;"
    ++ "can only measure accuracy by set size with searchstims stimuli, not VSD dataset"

/-- train.py lines 199-211: when per-set-size accuracy is requested, VSD raises
ValueError, searchstims builds the set-size view of the training set, and any
other dataset_type silently leaves trainset_set_size unbound (the inner
if/elif also has no else); when not requested it is bound to Python None. -/
def checkSetSizeDataset (save_acc : Bool) (dataset_type csv_file : String) :
    Except PyErr (Option (Option Dataset)) :=
  if save_acc then
    if dataset_type = "VSD" then Except.error (PyErr.valueError saveAccVsdMsg)
    else if dataset_type = "searchstims" then
      Except.ok (Option.some (Option.some (Dataset.searchstims csv_file "train" true)))
    else Except.ok Option.none
  else Except.ok (Option.some Option.none)

/-- train.py lines 213-222: loss selection. CE, CE-largest and CE-random all
select cross-entropy without the sigmoid squashing; BCE selects binary
cross-entropy with squashing; anything else raises ValueError. The returned
pair is (apply_sigmoid, criterion). -/
def resolveLoss (loss_func : String) : Except PyErr (Bool × String) :=
  if loss_func = "CE" ∨ loss_func = "CE-largest" ∨ loss_func = "CE-random" then
    Except.ok (false, "CrossEntropyLoss")
  else if loss_func = "BCE" then
    Except.ok (true, "BCELoss")
  else
    Except.error (PyErr.valueError ("invalid value for loss function: " ++ loss_func))

/-- Modelled from the spec: make_save_path lives in searchnets.utils.general,
which is not among the sources; section 6 of the spec gives the deterministic
per-job path save_path/net_name/replicate_index/epochs. -/
def make_save_path (save_path net_name : String) (net_number epochs : Int) : String :=
  save_path ++ "/" ++ net_name ++ "/" ++ toString net_number ++ "/" ++ toString epochs

/-- Python range(1, number_nets_to_train + 1) as a list of ints. -/
def netNumbers (n : Int) : List Int :=
  (List.range n.toNat).map (fun i => ((i + 1 : Nat) : Int))

/-- One iteration of the inner loop (train.py lines 227-276): the save path is
computed, then the trainer for the selected method is constructed, which
evaluates the local trainset (UnboundLocalError when no dataset branch
assigned it); for an unrecognized method neither branch assigns trainer and
the call trainer.train() raises UnboundLocalError. -/
def runJob (save_path net_name method : String) (trainset : Option Dataset)
    (epochs net_number : Int) : Except PyErr Job :=
  let save_path_this_net := make_save_path save_path net_name net_number epochs
  if method = "transfer" ∨ method = "initialize" then
    match trainset with
    | Option.none => Except.error (PyErr.unboundLocal "trainset")
    | Option.some _ => Except.ok ⟨epochs, net_number, save_path_this_net, method⟩
  else Except.error (PyErr.unboundLocal "trainer")

/-- The inner replicate loop over net_number in range(1, number_nets_to_train + 1). -/
def runJobsForNets (save_path net_name method : String) (trainset : Option Dataset)
    (epochs : Int) : List Int → Except PyErr (List Job)
  | [] => Except.ok []
  | i :: rest => do
    let j ← runJob save_path net_name method trainset epochs i
    let js ← runJobsForNets save_path net_name method trainset epochs rest
    Except.ok (j :: js)

/-- The outer epoch-budget loop (train.py line 224). -/
def runGrid (save_path net_name method : String) (trainset : Option Dataset)
    (n : Int) : List Int → Except PyErr (List Job)
  | [] => Except.ok []
  | e :: rest => do
    let js ← runJobsForNets save_path net_name method trainset e (netNumbers n)
    let more ← runGrid save_path net_name method trainset n rest
    Except.ok (js ++ more)

/-- train.py train(): the defensive checks, epochs_list normalization, seeding
(guarded by the truthiness of random_seed, so seed 0 skips it), dataset
selection, the per-set-size dataset check, loss selection, and the job grid,
in source order. Device selection and the transform resolution are external
collaborators with no effect on the modelled state and are omitted. -/
def train (a : TrainArgs) : Except PyErr TrainResult := do
  checkValEpoch a.use_val a.val_epoch
  checkPatience a.use_val a.patience a.val_epoch
  let epochs_list ← normalizeEpochsList a.epochs_list
  let seeded := a.random_seed != 0
  let sel := selectDatasets a.dataset_type a.csv_file a.root a.use_val
  let trainset_set_size ← checkSetSizeDataset a.save_acc_by_set_size_by_epoch
    a.dataset_type a.csv_file
  let loss ← resolveLoss a.loss_func
  let jobs ← runGrid a.save_path a.net_name a.method sel.1
    a.number_nets_to_train epochs_list
  Except.ok ⟨seeded, seeded, sel.1, sel.2, trainset_set_size, loss.1, loss.2, jobs⟩

/- ------------------------- concrete inputs for witnesses ------------------------- -/

/-- A baseline valid set of orchestrator arguments used by several witnesses. -/
def aOk : TrainArgs :=
  { csv_file := "data.csv", dataset_type := "searchstims", net_name := "alexnet",
    number_nets_to_train := 2, epochs_list := EpochsArg.int 4, batch_size := 64,
    random_seed := 42, save_path := "results" }

/-- A throwaway TrainResult used as the fallback of resultOf. -/
def emptyResult : TrainResult :=
  ⟨false, false, Option.none, Option.none, Option.none, false, "", []⟩

/-- The result record of a train() call known to succeed (fallback otherwise),
so witnesses can name the concrete result without spelling it out. -/
def resultOf (a : TrainArgs) : TrainResult :=
  match train a with
  | Except.ok r => r
  | Except.error _ => emptyResult

/-- Orchestrator arguments: validation not requested, val_epoch left at None. -/
def argsValEpochNone : TrainArgs := { aOk with use_val := false, val_epoch := PyNum.none }

/-- Orchestrator arguments: validation not requested, val_epoch zero. -/
def argsValEpochZero : TrainArgs := { aOk with use_val := false, val_epoch := PyNum.int 0 }

/-- Orchestrator arguments with the undocumented loss name CE-largest. -/
def argsLossCELargest : TrainArgs := { aOk with loss_func := "CE-largest" }

/-- Orchestrator arguments with an unknown dataset kind and an empty epoch grid. -/
def argsUnknownDatasetEmptyGrid : TrainArgs :=
  { aOk with dataset_type := "voc", epochs_list := EpochsArg.list [] }

/-- Orchestrator arguments with an unknown dataset kind and a nonempty grid. -/
def argsUnknownDataset : TrainArgs := { aOk with dataset_type := "voc" }

/-- Orchestrator arguments requesting per-set-size accuracy on the VSD dataset. -/
def argsSaveAccVSD : TrainArgs :=
  { aOk with dataset_type := "VSD", save_acc_by_set_size_by_epoch := true }

/-- Orchestrator arguments with random_seed zero. -/
def argsSeedZero : TrainArgs := { aOk with random_seed := 0 }

/-- A baseline per-field-valid [TRAIN] section. -/
def tcBase : TrainConfig :=
  { net_name := "alexnet", number_nets_to_train := 4, epochs_list := [10],
    batch_size := 64, random_seed := 42, save_path := "save" }

/-- patience given while use_val is false (the default). -/
def tcPatienceNoVal : TrainConfig := { tcBase with patience := Option.some 1 }

/-- Nonpositive replicate count and nonpositive epoch budgets. -/
def tcNonPositive : TrainConfig :=
  { tcBase with number_nets_to_train := -3, epochs_list := [0, -2] }

/-- A baseline per-field-valid [DATA] section with an integer train_size. -/
def dcBase : DataConfig := { csv_file_in := "data.csv", train_size := SplitSize.int 400 }

/-- Zero and negative integer split sizes. -/
def dcNegInt : DataConfig :=
  { dcBase with train_size := SplitSize.int (-5), val_size := Option.some (SplitSize.int 0) }

/-- A proportion train_size mixed with an absolute-count val_size. -/
def dcMix : DataConfig :=
  { dcBase with train_size := SplitSize.float 1, val_size := Option.some (SplitSize.int 100) }

/-- Proportion split sizes summing to 2. -/
def dcSum : DataConfig :=
  { dcBase with train_size := SplitSize.float 1, val_size := Option.some (SplitSize.float 1) }

/-- A single proportion train_size of exactly 1 (a valid proportion triple). -/
def dcProp : DataConfig := { dcBase with train_size := SplitSize.float 1 }

/-- The record DataConfig.make dcProp constructs (csv_file_out defaulted). -/
def dcPropMade : DataConfig :=
  { dcProp with csv_file_out := Option.some "data.csv_split.csv" }

/- ------------------------- helper lemmas ------------------------- -/

theorem bindUnit_ok {β : Type} (x : Except PyErr Unit) (f : Unit → Except PyErr β) (b : β)
    (h : (x >>= f) = Except.ok b) : x = Except.ok () ∧ f () = Except.ok b := by
  cases x with
  | error e => exact absurd h (by simp [Bind.bind, Except.bind])
  | ok u => cases u; exact ⟨rfl, h⟩

theorem bindInv {α β : Type} (x : Except PyErr α) (f : α → Except PyErr β) (b : β)
    (h : (x >>= f) = Except.ok b) : ∃ a, x = Except.ok a ∧ f a = Except.ok b := by
  cases x with
  | error e => exact absurd h (by simp [Bind.bind, Except.bind])
  | ok a => exact ⟨a, rfl, h⟩

theorem train_ok_inv (a : TrainArgs) (r : TrainResult) (h : train a = Except.ok r) :
    checkValEpoch a.use_val a.val_epoch = Except.ok () ∧
    checkPatience a.use_val a.patience a.val_epoch = Except.ok () ∧
    ∃ el tss loss jobs,
      normalizeEpochsList a.epochs_list = Except.ok el ∧
      checkSetSizeDataset a.save_acc_by_set_size_by_epoch a.dataset_type a.csv_file
        = Except.ok tss ∧
      resolveLoss a.loss_func = Except.ok loss ∧
      runGrid a.save_path a.net_name a.method
          (selectDatasets a.dataset_type a.csv_file a.root a.use_val).1
          a.number_nets_to_train el = Except.ok jobs ∧
      r = ⟨a.random_seed != 0, a.random_seed != 0,
           (selectDatasets a.dataset_type a.csv_file a.root a.use_val).1,
           (selectDatasets a.dataset_type a.csv_file a.root a.use_val).2,
           tss, loss.1, loss.2, jobs⟩ := by
  unfold train at h
  obtain ⟨h1, h⟩ := bindUnit_ok _ _ _ h
  obtain ⟨h2, h⟩ := bindUnit_ok _ _ _ h
  obtain ⟨el, h3, h⟩ := bindInv _ _ _ h
  obtain ⟨tss, h4, h⟩ := bindInv _ _ _ h
  obtain ⟨loss, h5, h⟩ := bindInv _ _ _ h
  obtain ⟨jobs, h6, h⟩ := bindInv _ _ _ h
  exact ⟨h1, h2, el, tss, loss, jobs, h3, h4, h5, h6, (Except.ok.inj h).symm⟩

theorem runJob_ok_inv (sp nn m : String) (ts : Option Dataset) (e i : Int) (j : Job)
    (h : runJob sp nn m ts e i = Except.ok j) :
    j = ⟨e, i, make_save_path sp nn i e, m⟩ := by
  unfold runJob at h
  split at h
  · cases ts with
    | none => exact absurd h (by simp)
    | some _ => exact (Except.ok.inj h).symm
  · exact absurd h (by simp)

theorem runJobsForNets_ok_inv (sp nn m : String) (ts : Option Dataset) (e : Int)
    (nets : List Int) (js : List Job)
    (h : runJobsForNets sp nn m ts e nets = Except.ok js) :
    js = nets.map (fun i => ⟨e, i, make_save_path sp nn i e, m⟩) := by
  induction nets generalizing js with
  | nil =>
    unfold runJobsForNets at h
    simpa using (Except.ok.inj h).symm
  | cons i rest ih =>
    unfold runJobsForNets at h
    obtain ⟨j, hj, h⟩ := bindInv _ _ _ h
    obtain ⟨js', hjs, h⟩ := bindInv _ _ _ h
    rw [runJob_ok_inv _ _ _ _ _ _ _ hj, ih _ hjs] at h
    simpa using (Except.ok.inj h).symm

theorem runGrid_ok_inv (sp nn m : String) (ts : Option Dataset) (n : Int)
    (el : List Int) (js : List Job)
    (h : runGrid sp nn m ts n el = Except.ok js) :
    js = el.flatMap (fun e => (netNumbers n).map (fun i => ⟨e, i, make_save_path sp nn i e, m⟩)) := by
  induction el generalizing js with
  | nil =>
    unfold runGrid at h
    simpa using (Except.ok.inj h).symm
  | cons e rest ih =>
    unfold runGrid at h
    obtain ⟨js1, hjs1, h⟩ := bindInv _ _ _ h
    obtain ⟨more, hmore, h⟩ := bindInv _ _ _ h
    rw [runJobsForNets_ok_inv _ _ _ _ _ _ _ hjs1, ih _ hmore] at h
    simpa using (Except.ok.inj h).symm

theorem netNumbers_length (n : Int) : (netNumbers n).length = n.toNat := by
  unfold netNumbers
  rw [List.length_map, List.length_range]

theorem sum_map_const_nat {α : Type} (l : List α) (c : Nat) :
    (l.map (fun _ => c)).sum = l.length * c := by
  induction l with
  | nil => simp
  | cons x xs ih => simp [ih, Nat.succ_mul, Nat.add_comm]

theorem runGrid_none (sp nn m : String) (n : Int) (el : List Int)
    (hm : m = "transfer" ∨ m = "initialize") :
    runGrid sp nn m Option.none n el =
      if el = [] ∨ n ≤ 0 then Except.ok []
      else Except.error (PyErr.unboundLocal "trainset") := by
  induction el with
  | nil => simp [runGrid]
  | cons e rest ih =>
    by_cases hn : n ≤ 0
    · have hne : netNumbers n = [] := by
        have : n.toNat = 0 := Int.toNat_of_nonpos hn
        simp [netNumbers, this]
      simp [runGrid, hne, runJobsForNets, ih, hn, Bind.bind, Except.bind]
    · have hpos : 0 < n.toNat := by omega
      obtain ⟨i, is, hL⟩ : ∃ i is, netNumbers n = i :: is := by
        cases hL : netNumbers n with
        | nil =>
          exfalso
          have := netNumbers_length n
          rw [hL] at this
          simp at this
          omega
        | cons i is => exact ⟨i, is, rfl⟩
      have hjob : runJob sp nn m Option.none e i = Except.error (PyErr.unboundLocal "trainset") := by
        unfold runJob
        rcases hm with hm | hm <;> simp [hm]
      simp [runGrid, hL, runJobsForNets, hjob, hn, Bind.bind, Except.bind]

theorem ok_bind {α β : Type} (a : α) (f : α → Except PyErr β) :
    (Except.ok a >>= f) = f a := rfl

theorem error_bind {α β : Type} (e : PyErr) (f : α → Except PyErr β) :
    ((Except.error e : Except PyErr α) >>= f) = Except.error e := rfl

theorem length_flatMap_const {α β : Type} (l : List α) (f : α → List β) (c : Nat)
    (hf : ∀ e, (f e).length = c) : (l.flatMap f).length = l.length * c := by
  induction l with
  | nil => simp
  | cons x xs ih =>
    simp only [List.flatMap_cons, List.length_append, List.length_cons, ih, hf]
    ring

theorem dataMake_ok_inv (d c : DataConfig) (h : DataConfig.make d = Except.ok c) :
    splitSizesCheck (splitSizes d) = Except.ok () ∧
    c = { d with csv_file_out :=
      Option.some (d.csv_file_out.getD (d.csv_file_in ++ "_split.csv")) } := by
  unfold DataConfig.make at h
  obtain ⟨-, h⟩ := bindUnit_ok _ _ _ h
  obtain ⟨-, h⟩ := bindUnit_ok _ _ _ h
  obtain ⟨-, h⟩ := bindUnit_ok _ _ _ h
  obtain ⟨-, h⟩ := bindUnit_ok _ _ _ h
  obtain ⟨-, h⟩ := bindUnit_ok _ _ _ h
  obtain ⟨-, h⟩ := bindUnit_ok _ _ _ h
  obtain ⟨-, h⟩ := bindUnit_ok _ _ _ h
  obtain ⟨h8, h⟩ := bindUnit_ok _ _ _ h
  exact ⟨h8, (Except.ok.inj h).symm⟩

/- ------------------------- claim theorems ------------------------- -/

/-- C1 (code bug evidence): the defensive val_epoch check on train.py line 133
parses as (use_val and val_epoch is None) or (val_epoch < 1) or
(type(val_epoch) != int). Contrary to the claim, a call with use_val = false
and val_epoch = None raises an error (a TypeError from evaluating None < 1
rather than the val_epoch ValueError), and a call with use_val = false and
val_epoch = 0 raises the val_epoch ValueError even though validation was not
requested, so the check does not fire exactly when validation is requested
with a non-positive-integer val_epoch. -/
theorem val_epoch_guard_code_behavior :
    train argsValEpochNone
      = Except.error (PyErr.typeError "unorderable types: NoneType and int")
    ∧ train argsValEpochZero
      = Except.error (PyErr.valueError (valEpochMsg (PyNum.int 0))) :=
  ⟨by decide, by decide⟩

/-- C2 counterexample: loss_func CE-largest is neither CE nor BCE, yet train()
succeeds (train.py line 213 also accepts CE-largest and CE-random), refuting
the claim that every loss_func other than CE and BCE fails. -/
theorem loss_func_ce_largest_accepted :
    argsLossCELargest.loss_func = "CE-largest" ∧ (train argsLossCELargest).isOk = true :=
  ⟨rfl, by decide⟩

/-- C2 amended: in every successful train() call, loss_func BCE yields
apply_sigmoid = true with the binary cross-entropy criterion; CE, CE-largest
and CE-random each yield apply_sigmoid = false with the cross-entropy
criterion; and success is only possible for one of these four values, so any
other loss_func makes train() fail. -/
theorem loss_selection_of_train (a : TrainArgs) (r : TrainResult)
    (h : train a = Except.ok r) :
    (a.loss_func = "BCE" → r.apply_sigmoid = true ∧ r.criterion = "BCELoss")
    ∧ ((a.loss_func = "CE" ∨ a.loss_func = "CE-largest" ∨ a.loss_func = "CE-random") →
        r.apply_sigmoid = false ∧ r.criterion = "CrossEntropyLoss")
    ∧ (a.loss_func = "CE" ∨ a.loss_func = "CE-largest" ∨ a.loss_func = "CE-random"
        ∨ a.loss_func = "BCE") := by
  obtain ⟨-, -, el, tss, loss, jobs, -, -, h5, -, hr⟩ := train_ok_inv a r h
  subst hr
  unfold resolveLoss at h5
  split at h5
  · rename_i hce
    obtain rfl : loss = (false, "CrossEntropyLoss") := (Except.ok.inj h5).symm
    exact ⟨fun hbce => absurd hce (by rw [hbce]; decide),
           fun _ => ⟨rfl, rfl⟩,
           Or.imp_right (Or.imp_right Or.inl) hce⟩
  · split at h5
    · rename_i hnotce hbce
      obtain rfl : loss = (true, "BCELoss") := (Except.ok.inj h5).symm
      exact ⟨fun _ => ⟨rfl, rfl⟩,
             fun hce => absurd hce hnotce,
             Or.inr (Or.inr (Or.inr hbce))⟩
    · exact absurd h5 (by simp)

/-- C2 amended, witness: at the baseline arguments (loss_func CE) train()
succeeds and the theorem yields the cross-entropy selection. -/
theorem loss_selection_of_train_witness :
    (resultOf aOk).apply_sigmoid = false ∧ (resultOf aOk).criterion = "CrossEntropyLoss" :=
  (loss_selection_of_train aOk (resultOf aOk) (by decide)).2.1 (Or.inl rfl)

/-- C10: for every successful train() call, random_seed = 0 skips the seeding
step entirely (the guard on train.py line 153 tests truthiness, and 0 is
falsy, so no generator is seeded and cudnn-deterministic behavior is not
requested), while any nonzero random_seed seeds the generators and requests
deterministic kernels. -/
theorem seeding_truthiness (a : TrainArgs) (r : TrainResult)
    (h : train a = Except.ok r) :
    (a.random_seed = 0 → r.seeded = false ∧ r.cudnn_deterministic = false)
    ∧ (a.random_seed ≠ 0 → r.seeded = true ∧ r.cudnn_deterministic = true) := by
  obtain ⟨-, -, el, tss, loss, jobs, -, -, -, -, hr⟩ := train_ok_inv a r h
  subst hr
  constructor
  · intro h0
    constructor <;> simp [h0]
  · intro hne
    constructor <;> simp [bne_iff_ne, hne]

/-- C10 witness: a concrete call with random_seed = 0 succeeds and skips seeding. -/
theorem seeding_truthiness_witness :
    argsSeedZero.random_seed = 0 ∧ (resultOf argsSeedZero).seeded = false
    ∧ (resultOf argsSeedZero).cudnn_deterministic = false := by
  have h := (seeding_truthiness argsSeedZero (resultOf argsSeedZero) (by decide)).1 rfl
  exact ⟨rfl, h.1, h.2⟩

/-- C3: for every successful train() call whose epochs_list normalized to el
(a bare int k becoming the one-element list given by the last conjunct), the
jobs are exactly the cross product of el (outer loop) with replicate indices
1..number_nets_to_train (inner loop, netNumbers), each save path computed as
make_save_path(save_path, net_name, net_number, epochs), and the number of
jobs is el.length times number_nets_to_train. -/
theorem job_grid_of_train (a : TrainArgs) (r : TrainResult) (el : List Int)
    (hel : normalizeEpochsList a.epochs_list = Except.ok el)
    (h : train a = Except.ok r) (hn : 0 ≤ a.number_nets_to_train) :
    r.jobs = el.flatMap (fun e => (netNumbers a.number_nets_to_train).map
        (fun i => ⟨e, i, make_save_path a.save_path a.net_name i e, a.method⟩))
    ∧ (r.jobs.length : Int) = el.length * a.number_nets_to_train
    ∧ (∀ k, a.epochs_list = EpochsArg.int k → el = [k]) := by
  obtain ⟨-, -, el', tss, loss, jobs, h3, -, -, h6, hr⟩ := train_ok_inv a r h
  rw [hel] at h3
  obtain rfl : el = el' := Except.ok.inj h3
  subst hr
  have hjobs := runGrid_ok_inv _ _ _ _ _ _ _ h6
  refine ⟨hjobs, ?_, ?_⟩
  · have hlen : jobs.length = el.length * a.number_nets_to_train.toNat := by
      rw [hjobs]
      exact length_flatMap_const _ _ _
        (fun e => by rw [List.length_map, netNumbers_length])
    show ((jobs.length : Int) = _)
    rw [hlen]
    push_cast
    rw [Int.toNat_of_nonneg hn]
  · intro k hk
    rw [hk] at hel
    exact (Except.ok.inj hel).symm

/-- C3 witness: the baseline arguments (bare epochs_list 4, two replicates)
produce exactly the two jobs 1 and 2 for epoch budget 4 with their
deterministic save paths. -/
theorem job_grid_of_train_witness :
    (resultOf aOk).jobs = [⟨4, 1, "results/alexnet/1/4", "transfer"⟩,
                           ⟨4, 2, "results/alexnet/2/4", "transfer"⟩]
    ∧ ((resultOf aOk).jobs.length : Int) = 2
    ∧ aOk.epochs_list = EpochsArg.int 4 := by
  have h := job_grid_of_train aOk (resultOf aOk) [4] (by decide) (by decide) (by decide)
  exact ⟨h.1.trans (by decide), h.2.1.trans (by decide), rfl⟩

/-- C8: whenever the defensive precondition checks pass and epochs_list has a
valid type, a train() call with save_acc_by_set_size_by_epoch = true and
dataset_type VSD fails with the per-set-size configuration ValueError; the
error is raised before the job loop, so no job, save path or Training
Strategy is produced (the error result carries no jobs). -/
theorem save_acc_vsd_fails_before_jobs (a : TrainArgs) (el : List Int)
    (h1 : checkValEpoch a.use_val a.val_epoch = Except.ok ())
    (h2 : checkPatience a.use_val a.patience a.val_epoch = Except.ok ())
    (h3 : normalizeEpochsList a.epochs_list = Except.ok el)
    (hsa : a.save_acc_by_set_size_by_epoch = true) (hds : a.dataset_type = "VSD") :
    train a = Except.error (PyErr.valueError saveAccVsdMsg) := by
  have htss : checkSetSizeDataset a.save_acc_by_set_size_by_epoch a.dataset_type a.csv_file
      = Except.error (PyErr.valueError saveAccVsdMsg) := by
    unfold checkSetSizeDataset
    rw [if_pos hsa, if_pos hds]
  unfold train
  rw [h1, h2, h3, htss]
  simp only [ok_bind, error_bind]

/-- C8 witness: a concrete VSD call with per-set-size accuracy requested fails
with exactly the per-set-size configuration error. -/
theorem save_acc_vsd_fails_before_jobs_witness :
    train argsSaveAccVSD = Except.error (PyErr.valueError saveAccVsdMsg) :=
  save_acc_vsd_fails_before_jobs argsSaveAccVSD [4] (by decide) (by decide)
    (by decide) rfl rfl

/-- C4: for every DataConfig construction, if some split size is a proportion
while another provided one is not, construction fails; if the sizes are
float-or-absent with some float present and the sum exceeds 1, construction
fails; and every successfully constructed DataConfig satisfies the invariant:
if any of its split sizes is a proportion then all provided ones are
proportions and their sum is at most 1. -/
theorem dataconfig_proportion_invariant (d : DataConfig) :
    ((splitSizes d).any sizeIsFloat = true ∧ ¬ ((splitSizes d).all sizeIsFloatOrNone = true) →
      (DataConfig.make d).isOk = false)
    ∧ ((splitSizes d).any sizeIsFloat = true ∧ ((splitSizes d).map sizeOrZero).sum > 1 →
      (DataConfig.make d).isOk = false)
    ∧ (∀ c, DataConfig.make d = Except.ok c →
      (splitSizes c).any sizeIsFloat = true →
        (splitSizes c).all sizeIsFloatOrNone = true
        ∧ ((splitSizes c).map sizeOrZero).sum ≤ 1) := by
  refine ⟨?_, ?_, ?_⟩
  · rintro ⟨hany, hall⟩
    cases hmk : DataConfig.make d with
    | error e => rfl
    | ok c =>
      obtain ⟨hchk, -⟩ := dataMake_ok_inv d c hmk
      unfold splitSizesCheck at hchk
      rw [if_pos hany, if_pos hall] at hchk
      exact absurd hchk (by simp)
  · rintro ⟨hany, hsum⟩
    cases hmk : DataConfig.make d with
    | error e => rfl
    | ok c =>
      obtain ⟨hchk, -⟩ := dataMake_ok_inv d c hmk
      unfold splitSizesCheck at hchk
      rw [if_pos hany] at hchk
      by_cases hall : (splitSizes d).all sizeIsFloatOrNone = true
      · rw [if_neg (not_not_intro hall), if_pos hsum] at hchk
        exact absurd hchk (by simp)
      · rw [if_pos hall] at hchk
        exact absurd hchk (by simp)
  · intro c hmk hanyc
    obtain ⟨hchk, hc⟩ := dataMake_ok_inv d c hmk
    have hsz : splitSizes c = splitSizes d := by rw [hc]; rfl
    rw [hsz] at hanyc ⊢
    unfold splitSizesCheck at hchk
    rw [if_pos hanyc] at hchk
    by_cases hall : (splitSizes d).all sizeIsFloatOrNone = true
    · refine ⟨hall, ?_⟩
      by_cases hsum : ((splitSizes d).map sizeOrZero).sum > 1
      · rw [if_neg (not_not_intro hall), if_pos hsum] at hchk
        exact absurd hchk (by simp)
      · exact le_of_not_lt hsum
    · rw [if_pos hall] at hchk
      exact absurd hchk (by simp)

/-- C4 witness: mixing a proportion with an absolute count fails, proportions
summing to 2 fail, and the successfully constructed record for a single
proportion of 1 satisfies the invariant. -/
theorem dataconfig_proportion_invariant_witness :
    (DataConfig.make dcMix).isOk = false
    ∧ (DataConfig.make dcSum).isOk = false
    ∧ ((splitSizes dcPropMade).all sizeIsFloatOrNone = true
        ∧ ((splitSizes dcPropMade).map sizeOrZero).sum ≤ 1) := by
  have hchk : splitSizesCheck (splitSizes dcProp) = Except.ok () := by
    unfold splitSizesCheck
    rw [if_pos (by decide), if_neg (by decide), if_neg ?_]
    norm_num [splitSizes, dcProp, dcBase, sizeOrZero]
  have hmk : DataConfig.make dcProp = Except.ok dcPropMade := by
    unfold DataConfig.make
    rw [hchk]
    decide
  refine ⟨(dataconfig_proportion_invariant dcMix).1 ⟨by decide, by decide⟩,
          (dataconfig_proportion_invariant dcSum).2.1 ⟨by decide, ?_⟩,
          (dataconfig_proportion_invariant dcProp).2.2 dcPropMade hmk (by decide)⟩
  norm_num [splitSizes, dcSum, dcBase, sizeOrZero]

/-- C5 counterexample: TrainConfig construction succeeds with patience set
while use_val is false (classes.py TrainConfig has per-field validators only
and no cross-field check), refuting the claim that this fails validation. -/
theorem trainconfig_patience_without_val_accepted :
    tcPatienceNoVal.use_val = false ∧ tcPatienceNoVal.patience = Option.some 1
    ∧ (TrainConfig.make tcPatienceNoVal).isOk = true :=
  ⟨rfl, rfl, by decide⟩

/-- C5 amended: TrainConfig construction performs per-field validation only;
with per-field-valid values it succeeds with patience set while use_val is
false, succeeds with use_val true and no val_epoch, and succeeds with
patience, use_val true and a positive val_epoch. The patience/use_val and
val_epoch cross-field rules are enforced only by the train() orchestrator. -/
theorem trainconfig_no_cross_field_validation (p v : Int) (hp : 1 ≤ p) (hv : 1 ≤ v) :
    (TrainConfig.make { tcBase with use_val := false, patience := Option.some p }).isOk = true
    ∧ (TrainConfig.make { tcBase with use_val := true, val_epoch := Option.none }).isOk = true
    ∧ (TrainConfig.make
        { tcBase with
            use_val := true, val_epoch := Option.some v, patience := Option.some p }).isOk
      = true := by
  have hnp : ¬ p < 1 := by omega
  have hnv : ¬ v < 1 := by omega
  refine ⟨?_, by decide, ?_⟩
  · simp [TrainConfig.make, tcBase, optValidate, is_pos_int, is_non_neg_int,
      Bind.bind, Except.bind, Except.isOk, Except.toBool, hnp]
  · simp [TrainConfig.make, tcBase, optValidate, is_pos_int, is_non_neg_int,
      Bind.bind, Except.bind, Except.isOk, Except.toBool, hnp, hnv]

/-- C5 amended, witness: instantiated at patience 1 and val_epoch 1. -/
theorem trainconfig_no_cross_field_validation_witness :
    (TrainConfig.make { tcBase with use_val := false, patience := Option.some 1 }).isOk = true
    ∧ (TrainConfig.make
        { tcBase with
            use_val := true, val_epoch := Option.some 1, patience := Option.some 1 }).isOk
      = true := by
  have h := trainconfig_no_cross_field_validation 1 1 (by decide) (by decide)
  exact ⟨h.1, h.2.2⟩

/-- C6 counterexample: DataConfig construction succeeds with a negative
integer train_size and a zero integer val_size (is_valid_proportion only
checks floats; integer split sizes have no positivity check), refuting the
claim that zero or negative integer split sizes fail validation. -/
theorem dataconfig_negative_int_size_accepted :
    dcNegInt.train_size = SplitSize.int (-5)
    ∧ dcNegInt.val_size = Option.some (SplitSize.int 0)
    ∧ (DataConfig.make dcNegInt).isOk = true :=
  ⟨rfl, rfl, by decide⟩

/-- C6 amended: each of the three split sizes, when given as a float outside
the closed interval 0 to 1, makes construction fail with that field's
proportion ValueError (train_size, val_size and test_size alike), but split
sizes given as integers are accepted whatever their values (including zero
and negative integers, in any of the three fields): only the float range is
validated. -/
theorem dataconfig_split_size_validation (q : Rat) (n : Int) (hq : q < 0 ∨ q > 1) :
    DataConfig.make { dcBase with train_size := SplitSize.float q }
      = Except.error (PyErr.valueError
          "if specified as a proportion, train_size must be between 0 and 1")
    ∧ DataConfig.make { dcBase with val_size := Option.some (SplitSize.float q) }
      = Except.error (PyErr.valueError
          "if specified as a proportion, val_size must be between 0 and 1")
    ∧ DataConfig.make { dcBase with test_size := Option.some (SplitSize.float q) }
      = Except.error (PyErr.valueError
          "if specified as a proportion, test_size must be between 0 and 1")
    ∧ (DataConfig.make
        { dcBase with
            train_size := SplitSize.int n, val_size := Option.some (SplitSize.int n),
            test_size := Option.some (SplitSize.int n) }).isOk
      = true := by
  have hv : ∀ name : String, is_valid_proportion name (SplitSize.float q)
      = Except.error (PyErr.valueError
          ("if specified as a proportion, " ++ name ++ " must be between 0 and 1")) := by
    intro name
    simp only [is_valid_proportion]
    rw [if_pos hq]
  refine ⟨?_, ?_, ?_, ?_⟩
  · unfold DataConfig.make
    rw [show ({ dcBase with train_size := SplitSize.float q } : DataConfig).train_size
        = SplitSize.float q from rfl, hv "train_size"]
    rfl
  · unfold DataConfig.make
    rw [show ({ dcBase with val_size := Option.some (SplitSize.float q) } : DataConfig).val_size
        = Option.some (SplitSize.float q) from rfl,
      show optValidate (is_valid_proportion "val_size") (Option.some (SplitSize.float q))
        = is_valid_proportion "val_size" (SplitSize.float q) from rfl, hv "val_size"]
    rfl
  · unfold DataConfig.make
    rw [show ({ dcBase with test_size := Option.some (SplitSize.float q) } : DataConfig).test_size
        = Option.some (SplitSize.float q) from rfl,
      show optValidate (is_valid_proportion "test_size") (Option.some (SplitSize.float q))
        = is_valid_proportion "test_size" (SplitSize.float q) from rfl, hv "test_size"]
    rfl
  · rfl

/-- C6 amended, witness: instantiated at the out-of-range proportion 2 (in
each of the three fields) and the negative count -7 (in all three fields at
once). -/
theorem dataconfig_split_size_validation_witness :
    ((2 : Rat) < 0 ∨ (2 : Rat) > 1)
    ∧ DataConfig.make { dcBase with train_size := SplitSize.float 2 }
        = Except.error (PyErr.valueError
            "if specified as a proportion, train_size must be between 0 and 1")
    ∧ DataConfig.make { dcBase with val_size := Option.some (SplitSize.float 2) }
        = Except.error (PyErr.valueError
            "if specified as a proportion, val_size must be between 0 and 1")
    ∧ DataConfig.make { dcBase with test_size := Option.some (SplitSize.float 2) }
        = Except.error (PyErr.valueError
            "if specified as a proportion, test_size must be between 0 and 1")
    ∧ (DataConfig.make
        { dcBase with
            train_size := SplitSize.int (-7), val_size := Option.some (SplitSize.int (-7)),
            test_size := Option.some (SplitSize.int (-7)) }).isOk
      = true := by
  have h := dataconfig_split_size_validation 2 (-7) (by decide)
  exact ⟨by decide, h.1, h.2.1, h.2.2.1, h.2.2.2⟩

/-- C9 counterexample: TrainConfig construction succeeds with replicate count
-3 and epoch budgets 0 and -2 (number_nets_to_train is validated only as an
int and check_epochs_list only checks the element type), refuting the claim
that nonpositive values fail validation. -/
theorem trainconfig_nonpositive_counts_accepted :
    tcNonPositive.number_nets_to_train = -3 ∧ tcNonPositive.epochs_list = [0, -2]
    ∧ (TrainConfig.make tcNonPositive).isOk = true :=
  ⟨rfl, rfl, by decide⟩

/-- C9 amended: TrainConfig requires number_nets_to_train to be an int and
epochs_list to be a list of ints, but enforces no positivity: construction
succeeds for every integer replicate count and every list of integer epoch
budgets (other fields per-field-valid). -/
theorem trainconfig_counts_only_type_checked (n : Int) (es : List Int) :
    (TrainConfig.make
        { tcBase with number_nets_to_train := n, epochs_list := es }).isOk = true := rfl

/-- C7 counterexample: with an unknown dataset_type and an empty epoch grid,
train() completes without raising any error at all (the dataset selection
if/elif on train.py lines 166-197 has no else branch), refuting the claim
that the dataset selection step fails with a configuration error. -/
theorem unknown_dataset_type_no_config_error :
    argsUnknownDatasetEmptyGrid.dataset_type = "voc"
    ∧ (train argsUnknownDatasetEmptyGrid).isOk = true :=
  ⟨rfl, by decide⟩

/-- C7 amended: an unknown dataset_type is not rejected by the selection step;
it leaves the training set unbound, so with a recognized method the call
fails with an UnboundLocalError on trainset when the first job is
constructed, and it completes without any error when the job grid is empty
(empty normalized epochs_list or nonpositive replicate count). -/
theorem unknown_dataset_type_unbound_trainset (a : TrainArgs) (el : List Int)
    (hds1 : a.dataset_type ≠ "searchstims") (hds2 : a.dataset_type ≠ "VSD")
    (hm : a.method = "transfer" ∨ a.method = "initialize")
    (h1 : checkValEpoch a.use_val a.val_epoch = Except.ok ())
    (h2 : checkPatience a.use_val a.patience a.val_epoch = Except.ok ())
    (h3 : normalizeEpochsList a.epochs_list = Except.ok el)
    (h4 : (resolveLoss a.loss_func).isOk = true) :
    (¬ (el = [] ∨ a.number_nets_to_train ≤ 0) →
        train a = Except.error (PyErr.unboundLocal "trainset"))
    ∧ ((el = [] ∨ a.number_nets_to_train ≤ 0) → (train a).isOk = true) := by
  have hsel : selectDatasets a.dataset_type a.csv_file a.root a.use_val
      = (Option.none, Option.none) := by
    unfold selectDatasets
    rw [if_neg hds2, if_neg hds1]
  have hsel1 : (selectDatasets a.dataset_type a.csv_file a.root a.use_val).1
      = Option.none := by rw [hsel]
  obtain ⟨tss, htss⟩ : ∃ t, checkSetSizeDataset a.save_acc_by_set_size_by_epoch
      a.dataset_type a.csv_file = Except.ok t := by
    unfold checkSetSizeDataset
    cases hb : a.save_acc_by_set_size_by_epoch
    · exact ⟨Option.some Option.none, by rw [if_neg (by simp)]⟩
    · exact ⟨Option.none, by rw [if_pos rfl, if_neg hds2, if_neg hds1]⟩
  obtain ⟨loss, hloss⟩ : ∃ l, resolveLoss a.loss_func = Except.ok l := by
    cases hr : resolveLoss a.loss_func with
    | ok l => exact ⟨l, rfl⟩
    | error e => rw [hr] at h4; exact absurd h4 (by simp [Except.isOk, Except.toBool])
  have htr : train a = (runGrid a.save_path a.net_name a.method Option.none
        a.number_nets_to_train el >>= fun jobs =>
      Except.ok ⟨a.random_seed != 0, a.random_seed != 0, Option.none,
        (selectDatasets a.dataset_type a.csv_file a.root a.use_val).2,
        tss, loss.1, loss.2, jobs⟩) := by
    unfold train
    rw [h1, h2, h3, htss, hloss]
    simp only [ok_bind, hsel1]
  rw [htr, runGrid_none _ _ _ _ _ hm]
  constructor
  · intro hne
    rw [if_neg hne]
    rfl
  · intro he
    rw [if_pos he]
    rfl

/-- C7 amended, witness: a concrete call with dataset_type voc and a nonempty
grid fails with the trainset UnboundLocalError, not a configuration error. -/
theorem unknown_dataset_type_unbound_trainset_witness :
    train argsUnknownDataset = Except.error (PyErr.unboundLocal "trainset") :=
  (unknown_dataset_type_unbound_trainset argsUnknownDataset [4]
    (by decide) (by decide) (Or.inl rfl) (by decide) (by decide) (by decide)
    (by decide)).1 (by decide)
